/-
  Verification of the jobly partial-update / filtered-search core.

  Shallow embedding of:
    - helpers/sql.js          (sqlForPartialUpdate)
    - models/company.js       (Company.get, Company.update, Company.findFiltered)
    - models/job.js           (Job.findAll, Job.update)
    - routes/jobs.js          (GET / handler)

  JavaScript objects are embedded as association lists in insertion order
  (`Object.keys` / `Object.values` enumerate insertion order).  SQL parameter
  values and JSON values are embedded as a small inductive type.  Fallible
  operations return `Except JoblyError`.
-/
import Mathlib

namespace Jobly

/-- A JavaScript / SQL parameter primitive value: payload values and bound
query parameters are carried through unmodified, so one scalar type serves
for both.  Numbers are modelled as rationals (covers integers and the
NUMERIC equity column). -/
inductive JPrim where
  | str (s : String)
  | num (q : ℚ)
  | bool (b : Bool)
  | null
  deriving DecidableEq, Repr

/-- Errors raised by the code.  `badRequestError` and `notFoundError` mirror
the `BadRequestError` / `NotFoundError` classes of expressError.js; the
JavaScript-level `TypeError` and `ReferenceError` are included because
models/job.js can raise them (see `jobUpdate`). -/
inductive JoblyError where
  | badRequestError (msg : String)
  | notFoundError (msg : String)
  | jsTypeError (msg : String)
  | jsReferenceError (msg : String)
  deriving DecidableEq, Repr

/-- The spec's `EmptyPayloadError`, realized in helpers/sql.js as
`throw new BadRequestError("No data")`. -/
def emptyPayloadError : JoblyError := .badRequestError "No data"

/-- The spec's `InvalidRangeError`, realized in models/company.js as
`throw new BadRequestError("minEmployees cannot be greater than maxEmployees")`. -/
def invalidRangeError : JoblyError :=
  .badRequestError "minEmployees cannot be greater than maxEmployees"

/-- An update payload: `dataToUpdate` as an association list in insertion
order (JavaScript object property order). -/
abbrev Payload := List (String × JPrim)

/-- A field-translation table: `jsToSql` as an association list. -/
abbrev Trans := List (String × String)

/-- JavaScript property read `obj[key]`: first (only) matching key, `none`
when the property is absent (JS `undefined`). -/
def jsGet : Trans → String → Option String
  | [], _ => none
  | (k', v) :: rest, k => if k = k' then v else jsGet rest k

/-- The column-name resolution `jsToSql[colName] || colName` of
helpers/sql.js.  JavaScript `||` takes the right operand when the left is
falsy: `undefined` (key absent) or the empty string. -/
def translate (t : Trans) (k : String) : String :=
  match jsGet t k with
  | some c => if c = "" then k else c
  | none => k

/-- The clause list built by helpers/sql.js:
`keys.map((colName, idx) => "\"" + (jsToSql[colName] || colName) + "\"=$" + (idx+1))`,
with `idx` the running 0-based position. -/
def sqlColsAux (t : Trans) : Nat → Payload → List String
  | _, [] => []
  | idx, (k, _) :: rest =>
      ("\"" ++ translate t k ++ "\"=$" ++ toString (idx + 1)) :: sqlColsAux t (idx + 1) rest

/-- The clause list of `sqlForPartialUpdate` (0-based map index, 1-based
placeholders). -/
def sqlCols (data : Payload) (t : Trans) : List String := sqlColsAux t 0 data

/-- Result shape of `sqlForPartialUpdate`: `{ setCols, values }`. -/
structure SqlFragment where
  setCols : String
  values : List JPrim
  deriving DecidableEq, Repr

/-- helpers/sql.js `sqlForPartialUpdate(dataToUpdate, jsToSql)`:
throws `BadRequestError("No data")` when `Object.keys(dataToUpdate)` is
empty, otherwise returns the joined clause string and `Object.values`
(the payload values in the same insertion order as the keys). -/
def sqlForPartialUpdate (data : Payload) (t : Trans) : Except JoblyError SqlFragment :=
  if data.length = 0 then .error emptyPayloadError
  else .ok { setCols := ", ".intercalate (sqlCols data t)
             values := data.map Prod.snd }

example :
    sqlForPartialUpdate
      [("firstName", .str "John"), ("age", .num 30)]
      [("firstName", "first_name"), ("age", "age")]
    = .ok { setCols := "\"first_name\"=$1, \"age\"=$2"
            values := [.str "John", .num 30] } := by rfl

example :
    sqlForPartialUpdate
      [("firstName", .str "John"), ("lastName", .str "Doe"), ("age", .num 30)]
      [("firstName", "first_name")]
    = .ok { setCols := "\"first_name\"=$1, \"lastName\"=$2, \"age\"=$3"
            values := [.str "John", .str "Doe", .num 30] } := by rfl

/-! ## Company.findFiltered (models/company.js) -/

/-- The filter payload of `Company.findFiltered`: each recognized predicate
key is optional (`undefined` when absent from the query). -/
structure CompanyFilter where
  name : Option String
  minEmployees : Option Int
  maxEmployees : Option Int
  deriving DecidableEq, Repr

/-- The precondition check of `Company.findFiltered`:
`minEmployees !== undefined && maxEmployees !== undefined && minEmployees > maxEmployees`. -/
def companyRangeInvalid (f : CompanyFilter) : Bool :=
  match f.minEmployees, f.maxEmployees with
  | some mn, some mx => mn > mx
  | _, _ => false

/-- JavaScript truthiness of the destructured `name` string:
`if (name)` skips both `undefined` and the empty string. -/
def strTruthy : Option String → Bool
  | none => false
  | some s => s ≠ ""

/-- The `(whereClauses, queryParams)` pair accumulated by
`Company.findFiltered`: name pushed first (`name ILIKE $k`), then
`num_employees >= $k`, then `num_employees <= $k`, each placeholder index
being `queryParams.length` right after the push. -/
def companyFilterParts (f : CompanyFilter) : List String × List JPrim :=
  let acc : List String × List JPrim := ([], [])
  let acc :=
    match f.name with
    | some n =>
        if n ≠ "" then
          (acc.1 ++ ["name ILIKE $" ++ toString (acc.2.length + 1)],
           acc.2 ++ [.str ("%" ++ n ++ "%")])
        else acc
    | none => acc
  let acc :=
    match f.minEmployees with
    | some mn =>
        (acc.1 ++ ["num_employees >= $" ++ toString (acc.2.length + 1)],
         acc.2 ++ [.num mn])
    | none => acc
  match f.maxEmployees with
  | some mx =>
      (acc.1 ++ ["num_employees <= $" ++ toString (acc.2.length + 1)],
       acc.2 ++ [.num mx])
  | none => acc

/-- The `whereClause` of `Company.findFiltered`:
`whereClauses.length > 0 ? "WHERE" + whereClauses.join(" AND ") : ""`
(note: the source concatenates `"WHERE"` with no trailing space). -/
def companyWhereClause (f : CompanyFilter) : String :=
  let cs := (companyFilterParts f).1
  if cs.length > 0 then "WHERE" ++ " AND ".intercalate cs else ""

/-- The query-building phase of `Company.findFiltered`: the range check runs
first (before any clause is built); on success the clause list, the bound
parameters and the assembled `whereClause` are produced for the SELECT. -/
def companyFindFilteredBuild (f : CompanyFilter) :
    Except JoblyError (List String × List JPrim × String) :=
  if companyRangeInvalid f then .error invalidRangeError
  else .ok ((companyFilterParts f).1, (companyFilterParts f).2, companyWhereClause f)

/-! ## Data model (jobly-schema: companies and jobs tables) -/

/-- A row of the `companies` table. -/
structure CompanyRow where
  handle : String
  name : String
  description : String
  numEmployees : Option Int
  logoUrl : Option String
  deriving DecidableEq, Repr

/-- A row of the `jobs` table (`equity` is NUMERIC, hence rational). -/
structure JobRow where
  id : Nat
  title : String
  salary : Option Int
  equity : Option ℚ
  companyHandle : String
  deriving DecidableEq, Repr

/-- The database state the modelled queries run against. -/
structure Db where
  companies : List CompanyRow
  jobs : List JobRow
  deriving DecidableEq, Repr

/-- Lexicographic order on character sequences, for `ORDER BY` on a text
column. -/
def charListLe : List Char → List Char → Bool
  | [], _ => true
  | _ :: _, [] => false
  | a :: as, b :: bs => if a = b then charListLe as bs else decide (a < b)

/-- `ORDER BY title` on a job result set: insertion sort by title,
ascending. -/
def insertByTitle (j : JobRow) : List JobRow → List JobRow
  | [] => [j]
  | k :: rest =>
      if charListLe j.title.data k.title.data then j :: k :: rest
      else k :: insertByTitle j rest

/-- Sort a job result set by title ascending (`ORDER BY title`). -/
def orderByTitle : List JobRow → List JobRow
  | [] => []
  | j :: rest => insertByTitle j (orderByTitle rest)

/-! ## Job model (models/job.js) and the jobs route (routes/jobs.js) -/

/-- `Job.findAll()`:
`SELECT id, title, salary, equity, company_handle FROM jobs ORDER BY title` —
every row of the jobs table, ordered by title; no WHERE clause and no
filter parameter. -/
def jobFindAll (db : Db) : List JobRow := orderByTitle db.jobs

/-- The query parameters of `GET /jobs` after the route's numeric/boolean
conversion (`+query.minSalary`, `query.hasEquity === "true"`). -/
structure JobSearchQuery where
  title : Option String
  minSalary : Option Int
  hasEquity : Option Bool
  deriving DecidableEq, Repr

/-- The `GET /jobs` handler of routes/jobs.js after schema validation has
passed (request validation is an external collaborator): the handler calls
`Job.findAll()` with no arguments, so the validated query parameters do not
reach the query at all. -/
def jobsGetHandler (db : Db) (_q : JobSearchQuery) : List JobRow := jobFindAll db

/-! ## The helpers/sql module object and the two import styles -/

/-- The export object of helpers/sql.js:
`module.exports = { sqlForPartialUpdate: sqlForPartialUpdate }`. -/
structure HelpersSqlModule where
  sqlForPartialUpdate : Payload → Trans → Except JoblyError SqlFragment

/-- A JavaScript binding that is either a function value or the module
object itself; calling a non-function raises `TypeError`. -/
inductive JsBinding where
  | func (f : Payload → Trans → Except JoblyError SqlFragment)
  | moduleObject (m : HelpersSqlModule)

/-- `require("../helpers/sql")` resolves to the module export object. -/
def requireHelpersSql : HelpersSqlModule := ⟨sqlForPartialUpdate⟩

/-- models/company.js destructures the named export:
`const { sqlForPartialUpdate } = require("../helpers/sql")` — a function. -/
def companySqlImport : JsBinding := .func requireHelpersSql.sqlForPartialUpdate

/-- models/job.js binds the whole module object:
`const sqlForPartialUpdate = require("../helpers/sql")` — not a function. -/
def jobSqlImport : JsBinding := .moduleObject requireHelpersSql

/-- A JavaScript call `binding(data, jsToSql)`: applies a function value,
and raises `TypeError` when the callee is the module object. -/
def jsCall (b : JsBinding) (data : Payload) (t : Trans) : Except JoblyError SqlFragment :=
  match b with
  | .func f => f data t
  | .moduleObject _ => .error (.jsTypeError "sqlForPartialUpdate is not a function")

/-- The `jsToSql` table `Job.update` passes to the fragment builder. -/
def jobJsToSql : Trans := [("title", "title"), ("salary", "salary"), ("equity", "equity")]

/-- `Job.update(id, data)` of models/job.js.  The body first calls its
`sqlForPartialUpdate` binding (the whole module object — see
`jobSqlImport` — so the call raises `TypeError` before any query); were the
call to succeed, the query line `db.query(querySql, ...)` references the
identifier `querySql` while the template was assigned to `querySQL`, so a
`ReferenceError` would be raised instead of issuing the UPDATE. -/
def jobUpdate (_db : Db) (_id : Nat) (data : Payload) : Except JoblyError JobRow := do
  let _frag ← jsCall jobSqlImport data jobJsToSql
  .error (.jsReferenceError "querySql is not defined")

/-! ## Company.get (models/company.js) -/

/-- A JSON scalar, for the fields of the `json_build_object(...)` entries. -/
inductive JsonScalar where
  | null
  | num (q : ℚ)
  | str (s : String)
  deriving DecidableEq, Repr

/-- One element of the `json_agg` array of `Company.get` — the object
`json_build_object('id', j.id, 'title', j.title, 'salary', j.salary, 'equity', j.equity)`
(note: no `companyHandle` key, although the docstring of `Company.get`
promises one). -/
structure JobJson where
  id : JsonScalar
  title : JsonScalar
  salary : JsonScalar
  equity : JsonScalar
  deriving DecidableEq, Repr

/-- SQL-to-JSON conversion of a nullable numeric column. -/
def jsonOfOptNum : Option ℚ → JsonScalar
  | none => .null
  | some q => .num q

/-- SQL-to-JSON conversion of a nullable integer column. -/
def jsonOfOptInt : Option Int → JsonScalar
  | none => .null
  | some n => .num n

/-- The `jobs` aggregate of `Company.get`:
`json_agg(json_build_object('id', j.id, 'title', j.title, 'salary', j.salary, 'equity', j.equity))`
grouped per company over `LEFT JOIN jobs j ON c.handle = j.company_handle`.
When the company has no jobs, the LEFT JOIN still yields one row whose job
columns are all NULL, so the aggregate is a one-element array holding an
all-null object; otherwise one object per joined job row, in table order. -/
def jobsAgg (js : List JobRow) : List JobJson :=
  match js with
  | [] => [{ id := .null, title := .null, salary := .null, equity := .null }]
  | _ =>
      js.map fun j =>
        { id := .num j.id, title := .str j.title
          salary := jsonOfOptInt j.salary, equity := jsonOfOptNum j.equity }

/-- The row shape returned by `Company.get`. -/
structure CompanyWithJobs where
  handle : String
  name : String
  description : String
  numEmployees : Option Int
  logoUrl : Option String
  jobs : List JobJson
  deriving DecidableEq, Repr

/-- `Company.get(handle)` of models/company.js: the SELECT with
`LEFT JOIN jobs ... GROUP BY c.handle` restricted to `handle = $1`,
throwing `NotFoundError` when no company row matches. -/
def companyGet (db : Db) (handle : String) : Except JoblyError CompanyWithJobs :=
  match db.companies.find? (fun c => c.handle == handle) with
  | none => .error (.notFoundError ("No company: " ++ handle))
  | some c =>
      .ok { handle := c.handle, name := c.name, description := c.description
            numEmployees := c.numEmployees, logoUrl := c.logoUrl
            jobs := jobsAgg (db.jobs.filter (fun j => j.companyHandle == handle)) }

/-! ## Company.update (models/company.js) -/

/-- The `jsToSql` table `Company.update` passes to the fragment builder:
only `numEmployees` and `logoUrl` are renamed. -/
def companyJsToSql : Trans := [("numEmployees", "num_employees"), ("logoUrl", "logo_url")]

/-- The `(querySql, parameters)` pair `Company.update(handle, data)` hands to
`db.query`: the SET fragment from `sqlForPartialUpdate(data, companyJsToSql)`
(the destructured function import, see `companySqlImport`), the WHERE
placeholder `$(values.length + 1)`, and the parameter list
`[...values, handle]`.  The template's line breaks and indentation are
collapsed to single spaces. -/
def companyUpdateQuery (handle : String) (data : Payload) :
    Except JoblyError (String × List JPrim) := do
  let frag ← jsCall companySqlImport data companyJsToSql
  let handleVarIdx := "$" ++ toString (frag.values.length + 1)
  .ok ("UPDATE companies SET " ++ frag.setCols ++ " WHERE handle = " ++ handleVarIdx ++
        " RETURNING handle, name, description, num_employees AS \"numEmployees\"," ++
        " logo_url AS \"logoUrl\"",
       frag.values ++ [.str handle])

example :
    companyUpdateQuery "acme" [("handle", .str "newh")]
    = .ok ("UPDATE companies SET \"handle\"=$1 WHERE handle = $2" ++
           " RETURNING handle, name, description, num_employees AS \"numEmployees\"," ++
           " logo_url AS \"logoUrl\"",
           [.str "newh", .str "acme"]) := by rfl

/-! ## Supporting lemmas -/

theorem sqlColsAux_length (t : Trans) :
    ∀ (data : Payload) (idx : Nat), (sqlColsAux t idx data).length = data.length := by
  intro data
  induction data with
  | nil => intro idx; rfl
  | cons p rest ih =>
      intro idx
      obtain ⟨k, v⟩ := p
      simp [sqlColsAux, ih]

theorem sqlColsAux_get (t : Trans) :
    ∀ (data : Payload) (idx i : Nat),
      (sqlColsAux t idx data)[i]? =
        (data[i]?).map (fun p => "\"" ++ translate t p.1 ++ "\"=$" ++ toString (idx + i + 1)) := by
  intro data
  induction data with
  | nil => intro idx i; rfl
  | cons p rest ih =>
      intro idx i
      obtain ⟨k, v⟩ := p
      cases i with
      | zero => simp [sqlColsAux]
      | succ i =>
          simp only [sqlColsAux, List.getElem?_cons_succ, ih (idx + 1) i]
          have : idx + 1 + i = idx + (i + 1) := by omega
          rw [this]

theorem sqlCols_length (data : Payload) (t : Trans) :
    (sqlCols data t).length = data.length :=
  sqlColsAux_length t data 0

theorem sqlCols_get (data : Payload) (t : Trans) (i : Nat) :
    (sqlCols data t)[i]? =
      (data[i]?).map (fun p => "\"" ++ translate t p.1 ++ "\"=$" ++ toString (i + 1)) := by
  have h := sqlColsAux_get t data 0 i
  simpa [sqlCols] using h

/-! ## Claim theorems -/

/-- C1: for every non-empty update payload and every translation table,
`sqlForPartialUpdate` returns exactly `len(P)` clauses and `len(P)` values;
the clause at 0-based position `i` carries placeholder `$(i+1)` (so indices
`1..len(P)` each appear exactly once, in payload iteration order), and the
value at position `i` is the payload value of the `i`-th key; `setCols` is
the clause list joined with `", "`. -/
theorem partial_update_fragment_shape (data : Payload) (t : Trans) (h : data ≠ []) :
    ∃ frag, sqlForPartialUpdate data t = .ok frag ∧
      (sqlCols data t).length = data.length ∧
      frag.values.length = data.length ∧
      frag.setCols = ", ".intercalate (sqlCols data t) ∧
      (∀ i k v, data[i]? = some (k, v) →
        (sqlCols data t)[i]? = some ("\"" ++ translate t k ++ "\"=$" ++ toString (i + 1)) ∧
        frag.values[i]? = some v) := by
  refine ⟨{ setCols := ", ".intercalate (sqlCols data t), values := data.map Prod.snd }, ?_, ?_, ?_, rfl, ?_⟩
  · have hlen : data.length ≠ 0 := by
      intro h0
      exact h (List.length_eq_zero.mp h0)
    simp [sqlForPartialUpdate, hlen]
  · exact sqlCols_length data t
  · simp
  · intro i k v hget
    constructor
    · rw [sqlCols_get, hget]; rfl
    · simp [List.getElem?_map, hget]

/-- Witness for C1: the fragment shape at the concrete payload
`{firstName: "John", age: 30}` with table `{firstName: first_name, age: age}`. -/
theorem partial_update_fragment_shape_witness :
    ∃ frag,
      sqlForPartialUpdate [("firstName", .str "John"), ("age", .num 30)]
          [("firstName", "first_name"), ("age", "age")] = .ok frag ∧
      (sqlCols [("firstName", .str "John"), ("age", .num 30)]
          [("firstName", "first_name"), ("age", "age")]).length = 2 ∧
      frag.values.length = 2 ∧
      frag.setCols = ", ".intercalate (sqlCols [("firstName", .str "John"), ("age", .num 30)]
          [("firstName", "first_name"), ("age", "age")]) ∧
      (∀ i k v,
        ([("firstName", JPrim.str "John"), ("age", JPrim.num 30)] : Payload)[i]? = some (k, v) →
        (sqlCols [("firstName", .str "John"), ("age", .num 30)]
            [("firstName", "first_name"), ("age", "age")])[i]?
          = some ("\"" ++ translate [("firstName", "first_name"), ("age", "age")] k ++ "\"=$" ++ toString (i + 1)) ∧
        frag.values[i]? = some v) :=
  partial_update_fragment_shape
    [("firstName", .str "John"), ("age", .num 30)]
    [("firstName", "first_name"), ("age", "age")]
    (by decide)

/-- C6: for every translation table, `sqlForPartialUpdate` on the empty
payload fails with the spec's `EmptyPayloadError`
(`BadRequestError("No data")`); no fragment is produced and the builder
issues no query. -/
theorem empty_payload_rejected (t : Trans) :
    sqlForPartialUpdate [] t = .error emptyPayloadError := rfl

theorem translate_of_present (t : Trans) (k c : String) (hc : jsGet t k = some c)
    (hne : c ≠ "") : translate t k = c := by
  unfold translate
  rw [hc]
  simp [hne]

theorem translate_of_fallback (t : Trans) (k : String)
    (h : jsGet t k = none ∨ jsGet t k = some "") : translate t k = k := by
  unfold translate
  rcases h with h0 | h0 <;> simp [h0]

/-- C7, counterexample: the claim "if the key is present in T the emitted
column name equals T[key]" fails when the table maps a key to the empty
string: the JavaScript fallback `jsToSql[colName] || colName` also triggers
on the falsy empty string, so for payload `{a: 1}` and table `{a: ""}` the
emitted clause is `"a"=$1`, not `""=$1`. -/
theorem column_translation_counterexample :
    jsGet [("a", "")] "a" = some "" ∧
    sqlCols [("a", JPrim.num 1)] [("a", "")] = ["\"a\"=$1"] ∧
    ("\"a\"=$1" : String) ≠ "\"\"=$1" := by
  refine ⟨rfl, rfl, by decide⟩

/-- C7, amended: if a payload key is present in the translation table with a
non-empty column name `c`, the emitted column name equals `c`; if the key is
absent from the table — or present with the empty string, which JavaScript
`||` treats as falsy — the emitted column name equals the key itself. -/
theorem column_translation_resolution (data : Payload) (t : Trans) (i : Nat)
    (k : String) (v : JPrim) (hget : data[i]? = some (k, v)) :
    (∀ c, jsGet t k = some c → c ≠ "" →
      (sqlCols data t)[i]? = some ("\"" ++ c ++ "\"=$" ++ toString (i + 1))) ∧
    (jsGet t k = none ∨ jsGet t k = some "" →
      (sqlCols data t)[i]? = some ("\"" ++ k ++ "\"=$" ++ toString (i + 1))) := by
  have hcol := sqlCols_get data t i
  rw [hget] at hcol
  constructor
  · intro c hc hne
    rw [hcol]
    simp [translate_of_present t k c hc hne]
  · intro habs
    rw [hcol]
    simp [translate_of_fallback t k habs]

/-- Witness for C7's amended theorem: payload `{firstName: "J", handle: "h"}`
with table `{firstName: "first_name", logoUrl: ""}` — `firstName` (present,
non-empty) maps to `first_name`; instantiated at index 0. -/
theorem column_translation_resolution_witness :
    (∀ c, jsGet [("firstName", "first_name"), ("logoUrl", "")] "firstName" = some c → c ≠ "" →
      (sqlCols [("firstName", JPrim.str "J"), ("handle", JPrim.str "h")]
          [("firstName", "first_name"), ("logoUrl", "")])[0]?
        = some ("\"" ++ c ++ "\"=$" ++ toString (0 + 1))) ∧
    (jsGet [("firstName", "first_name"), ("logoUrl", "")] "firstName" = none ∨
        jsGet [("firstName", "first_name"), ("logoUrl", "")] "firstName" = some "" →
      (sqlCols [("firstName", JPrim.str "J"), ("handle", JPrim.str "h")]
          [("firstName", "first_name"), ("logoUrl", "")])[0]?
        = some ("\"" ++ "firstName" ++ "\"=$" ++ toString (0 + 1))) :=
  column_translation_resolution
    [("firstName", JPrim.str "J"), ("handle", JPrim.str "h")]
    [("firstName", "first_name"), ("logoUrl", "")] 0 "firstName" (JPrim.str "J") rfl

/-- C8: whenever both employee bounds are present and the minimum exceeds
the maximum, `Company.findFiltered` fails with the spec's
`InvalidRangeError` before any clause is built or query issued. -/
theorem min_max_range_rejected (f : CompanyFilter) (mn mx : Int)
    (hmn : f.minEmployees = some mn) (hmx : f.maxEmployees = some mx) (h : mx < mn) :
    companyFindFilteredBuild f = .error invalidRangeError := by
  have hinv : companyRangeInvalid f = true := by
    unfold companyRangeInvalid
    rw [hmn, hmx]
    simpa using h
  simp [companyFindFilteredBuild, hinv]

/-- Witness for C8: `findFiltered({minEmployees: 10, maxEmployees: 5})`
fails with `InvalidRangeError`. -/
theorem min_max_range_rejected_witness :
    companyFindFilteredBuild { name := none, minEmployees := some 10, maxEmployees := some 5 }
      = .error invalidRangeError :=
  min_max_range_rejected
    { name := none, minEmployees := some 10, maxEmployees := some 5 }
    10 5 rfl rfl (by decide)

/-- C9: the company name filter is a case-insensitive contains match: for a
payload carrying only a non-empty `name`, exactly one clause is emitted
(`name ILIKE $1`) and exactly one value is bound, the supplied string
wrapped with `%` wildcards on both sides; in particular `{name: "ab"}`
binds `%ab%`. -/
theorem name_filter_contains (n : String) (h : n ≠ "") :
    companyFilterParts { name := some n, minEmployees := none, maxEmployees := none }
        = (["name ILIKE $1"], [.str ("%" ++ n ++ "%")]) ∧
    companyFilterParts { name := some "ab", minEmployees := none, maxEmployees := none }
        = (["name ILIKE $1"], [.str "%ab%"]) := by
  constructor
  · simp [companyFilterParts, h]
    rfl
  · rfl

/-- Witness for C9: the name filter at the concrete payload `{name: "ab"}`. -/
theorem name_filter_contains_witness :
    companyFilterParts { name := some "ab", minEmployees := none, maxEmployees := none }
        = (["name ILIKE $1"], [.str ("%" ++ "ab" ++ "%")]) ∧
    companyFilterParts { name := some "ab", minEmployees := none, maxEmployees := none }
        = (["name ILIKE $1"], [.str "%ab%"]) :=
  name_filter_contains "ab" (by decide)

/-- C10: `Company.update` restricts no payload key — every key outside the
renamed pair `numEmployees`/`logoUrl` is emitted verbatim as a quoted SET
column at its payload position; in particular the payload `{handle: "newh"}`
yields the update statement whose SET fragment is `"handle"=$1`,
rewriting the company's natural key. -/
theorem company_update_unrestricted_keys (data : Payload) (i : Nat) (k : String) (v : JPrim)
    (hget : data[i]? = some (k, v)) (h1 : k ≠ "numEmployees") (h2 : k ≠ "logoUrl") :
    (sqlCols data companyJsToSql)[i]? = some ("\"" ++ k ++ "\"=$" ++ toString (i + 1)) ∧
    companyUpdateQuery "acme" [("handle", .str "newh")]
      = .ok ("UPDATE companies SET \"handle\"=$1 WHERE handle = $2" ++
             " RETURNING handle, name, description, num_employees AS \"numEmployees\"," ++
             " logo_url AS \"logoUrl\"",
             [.str "newh", .str "acme"]) := by
  constructor
  · have habs : jsGet companyJsToSql k = none := by
      simp [companyJsToSql, jsGet, h1, h2]
    have hcol := sqlCols_get data companyJsToSql i
    rw [hget] at hcol
    rw [hcol]
    simp [translate_of_fallback companyJsToSql k (Or.inl habs)]
  · rfl

/-- Witness for C10: the unrestricted-key property at the concrete payload
`{handle: "newh"}`, index 0. -/
theorem company_update_unrestricted_keys_witness :
    (sqlCols [("handle", JPrim.str "newh")] companyJsToSql)[0]?
        = some ("\"" ++ "handle" ++ "\"=$" ++ toString (0 + 1)) ∧
    companyUpdateQuery "acme" [("handle", .str "newh")]
      = .ok ("UPDATE companies SET \"handle\"=$1 WHERE handle = $2" ++
             " RETURNING handle, name, description, num_employees AS \"numEmployees\"," ++
             " logo_url AS \"logoUrl\"",
             [.str "newh", .str "acme"]) :=
  company_update_unrestricted_keys
    [("handle", JPrim.str "newh")] 0 "handle" (JPrim.str "newh")
    rfl (by decide) (by decide)

/-- C2: the jobs `GET /` handler ignores every supplied filter — it calls
`Job.findAll()` with no arguments — so a request with `hasEquity=true`
returns all jobs, including a job whose equity is `0` (not strictly
positive): evaluated on a two-job table where job 1 has equity `0`. -/
theorem has_equity_filter_ignored :
    (∀ (db : Db) (q : JobSearchQuery), jobsGetHandler db q = jobFindAll db) ∧
    jobsGetHandler
        { companies := [{ handle := "acme", name := "Acme", description := "d",
                          numEmployees := some 10, logoUrl := none }]
          jobs := [{ id := 1, title := "archivist", salary := some 50000,
                     equity := some 0, companyHandle := "acme" },
                   { id := 2, title := "baker", salary := some 60000,
                     equity := some (1/2), companyHandle := "acme" }] }
        { title := none, minSalary := none, hasEquity := some true }
      = [{ id := 1, title := "archivist", salary := some 50000,
           equity := some 0, companyHandle := "acme" },
         { id := 2, title := "baker", salary := some 60000,
           equity := some (1/2), companyHandle := "acme" }] ∧
    ¬ (0 : ℚ) > 0 := by
  refine ⟨fun db q => rfl, rfl, by decide⟩

/-- C3: `Job.update` never reaches the UPDATE statement: for every database,
id and payload it fails with the JavaScript `TypeError` raised by calling
the helpers/sql module object (`const sqlForPartialUpdate = require(...)`
binds the module, not the function) — it neither returns the updated job
nor raises `NotFoundError`. -/
theorem job_update_always_type_error (db : Db) (id : Nat) (data : Payload) :
    jobUpdate db id data = .error (.jsTypeError "sqlForPartialUpdate is not a function") := rfl

/-- C4: on the filter `{name: "ab"}` the built where-clause is
`"WHEREname ILIKE $1"` — the `WHERE` keyword fused with the first clause
(the source concatenates `"WHERE"` without a trailing separator) — and not
the syntactically valid `"WHERE "` followed by the `" AND "`-joined
clauses that the claim describes. -/
theorem where_keyword_fused :
    companyWhereClause { name := some "ab", minEmployees := none, maxEmployees := none }
        = "WHEREname ILIKE $1" ∧
    companyWhereClause { name := some "ab", minEmployees := none, maxEmployees := none }
        ≠ "WHERE " ++ " AND ".intercalate
            (companyFilterParts
              { name := some "ab", minEmployees := none, maxEmployees := none }).1 ∧
    companyWhereClause { name := none, minEmployees := none, maxEmployees := none } = "" := by
  refine ⟨rfl, by decide, rfl⟩

/-- C5: `Company.get("acme")` on a database where company `acme` has no
jobs returns a `jobs` attribute equal to a one-element list holding an
all-null placeholder entry (the LEFT JOIN row aggregated by `json_agg`),
not the empty list the claim requires; with exactly one job for `acme`
the same call does return exactly one (real) job entry. -/
theorem get_company_no_jobs_placeholder :
    companyGet { companies := [{ handle := "acme", name := "Acme", description := "d",
                                 numEmployees := some 10, logoUrl := none }]
                 jobs := [] } "acme"
      = .ok { handle := "acme", name := "Acme", description := "d",
              numEmployees := some 10, logoUrl := none
              jobs := [{ id := .null, title := .null, salary := .null, equity := .null }] } ∧
    ([{ id := .null, title := .null, salary := .null, equity := .null }] : List JobJson) ≠ [] ∧
    companyGet { companies := [{ handle := "acme", name := "Acme", description := "d",
                                 numEmployees := some 10, logoUrl := none }]
                 jobs := [{ id := 7, title := "baker", salary := some 60000,
                            equity := some 0, companyHandle := "acme" }] } "acme"
      = .ok { handle := "acme", name := "Acme", description := "d",
              numEmployees := some 10, logoUrl := none
              jobs := [{ id := .num 7, title := .str "baker",
                         salary := .num 60000, equity := .num 0 }] } := by
  refine ⟨rfl, by decide, rfl⟩

end Jobly
